import Mathlib

/-!
Verification of the Lumina Studio generation-orchestration and timeline core.

The definitions below are a shallow embedding of the state and handlers of
the single-file React application (`src/types.ts`): the `App` component's
state cells become fields of `AppState`, JavaScript `Record<string, T>`
objects become association lists with the spread-update semantics
(`setRecord`/`getRecord`), JavaScript numbers carrying durations and start
times become rationals, and each handler (`parseScript`,
`updateSceneDuration`, `generateStoryboardImage`, `generateVeoVideo`,
`addToTimeline`, the duration `<input>`'s onChange) becomes an explicit
state-transition function.  Asynchronous remote calls are split at their
await boundaries: the outcome of a remote call is a parameter of the
function that consumes it, and non-deterministic id generation becomes an
explicit id argument.
-/

/-- Scene record, from `interface Scene` (src/types.ts lines 1-9).
The optional `storyboardUrl?` and `videoUrl?` fields become `Option String`. -/
structure Scene where
  id : String
  number : Int
  slugline : String
  description : String
  storyboardUrl : Option String
  videoUrl : Option String
  duration : Rat
deriving DecidableEq, Repr

/-- Script record, from `interface Script` (src/types.ts lines 11-15). -/
structure Script where
  title : String
  rawContent : String
  scenes : List Scene
deriving DecidableEq, Repr

/-- Clip kind, from the union `'video' | 'audio' | 'effect' | 'title'`. -/
inductive ClipType
  | video
  | audio
  | effect
  | title
deriving DecidableEq, Repr

/-- Timeline clip record, from `interface TimelineClip` (src/types.ts lines 17-26). -/
structure TimelineClip where
  id : String
  trackId : Int
  startTime : Rat
  duration : Rat
  name : String
  type : ClipType
  color : String
  sceneId : Option String
deriving DecidableEq, Repr

/-- Track kind, from the union `'video' | 'audio'`. -/
inductive TrackType
  | video
  | audio
deriving DecidableEq, Repr

/-- Track record, from `interface Track` (src/types.ts lines 28-33). -/
structure Track where
  id : Int
  name : String
  type : TrackType
  clips : List TimelineClip
deriving DecidableEq, Repr

/-- Active tab, from `type Tab = 'script' | 'storyboard' | 'timeline'`. -/
inductive Tab
  | script
  | storyboard
  | timeline
deriving DecidableEq, Repr

/-- Per-scene video generation status, from `interface VeoGenerationState`. -/
structure VeoGenerationState where
  isGenerating : Bool
  progressMessage : String
deriving DecidableEq, Repr

/-- A JavaScript `Record<string, T>` as an association list in key insertion
order; absent keys read as `none`. -/
def getRecord (k : String) : List (String × α) → Option α
  | [] => none
  | p :: r => if p.1 = k then some p.2 else getRecord k r

/-- The spread update `\x7b ...prev, [k]: v \x7d`: a key already present keeps
its position and gets the new value, a fresh key is appended at the end. -/
def setRecord (k : String) (v : α) : List (String × α) → List (String × α)
  | [] => [(k, v)]
  | p :: r => if p.1 = k then (k, v) :: r else p :: setRecord k v r

/-- The `App` component state: the `useState` cells of src/types.ts lines
78-92.  `generatingImages : Record<string, boolean>` and
`veoState : Record<string, VeoGenerationState>` are keyed by scene id. -/
structure AppState where
  activeTab : Tab
  script : Script
  tracks : List Track
  isParsing : Bool
  generatingImages : List (String × Bool)
  veoState : List (String × VeoGenerationState)
  hasPaidKey : Bool
deriving DecidableEq, Repr

/-- The fixed initial track set (src/types.ts lines 84-88). -/
def initialTracks : List Track :=
  [ { id := 1, name := "Video 1", type := TrackType.video, clips := [] },
    { id := 2, name := "Video 2", type := TrackType.video, clips := [] },
    { id := 3, name := "Audio 1", type := TrackType.audio, clips := [] } ]

/-- One scene object of the JSON array returned by the parsing model call
(src/types.ts lines 126-139, the `responseSchema` items). -/
structure RawScene where
  scene_number : Int
  slugline : String
  visual_description : String
  estimated_duration : Rat
deriving DecidableEq, Repr

/-- Outcome of the awaited parse call: either the decoded scene array, or a
thrown error (malformed JSON, a non-array payload, or a transport failure),
which lands in the `catch` block. -/
inductive ParseOutcome
  | success (parsed : List RawScene)
  | failure (err : String)
deriving DecidableEq, Repr

/-- The scene built from one parsed record (src/types.ts lines 143-149);
`generateId()` is determinized into the supplied id. -/
def rawToScene (sid : String) (r : RawScene) : Scene :=
  { id := sid, number := r.scene_number, slugline := r.slugline,
    description := r.visual_description, storyboardUrl := none,
    videoUrl := none, duration := r.estimated_duration }

/-- The `parseScript` handler (src/types.ts lines 115-159): a blank raw
script returns before touching any state; otherwise `isParsing` is set and,
in the `finally`, cleared again.  On success the scene list is replaced
wholesale and the storyboard tab is activated; on a thrown error the `catch`
only logs and alerts, so scenes and tab are untouched. -/
def parseScript (genId : Nat → String) (outcome : ParseOutcome) (st : AppState) : AppState :=
  if st.script.rawContent.trim = "" then st
  else
    match outcome with
    | ParseOutcome.failure _ => { st with isParsing := false }
    | ParseOutcome.success parsed =>
        { st with
          script := { st.script with
            scenes := parsed.enum.map (fun p => rawToScene (genId p.1) p.2) },
          activeTab := Tab.storyboard,
          isParsing := false }

/-- The `updateSceneDuration` handler (src/types.ts lines 161-178): writes
the new duration into the scene with the given id, then into every clip of
every track whose `sceneId` link matches.  No field other than `duration`
is touched, in particular no `startTime`. -/
def updateSceneDuration (sceneId : String) (newDuration : Rat) (st : AppState) : AppState :=
  { st with
    script := { st.script with
      scenes := st.script.scenes.map (fun s =>
        if s.id = sceneId then { s with duration := newDuration } else s) },
    tracks := st.tracks.map (fun track =>
      { track with
        clips := track.clips.map (fun clip =>
          if clip.sceneId = some sceneId then { clip with duration := newDuration }
          else clip) }) }

/-- The duration `<input>`'s onChange handler in `StoryboardView`
(src/types.ts lines 429-441): `parseFloat` of the field text (a `none`
argument stands for `NaN`), guarded by `!isNaN(val) && val >= 0` before
calling `updateSceneDuration`.  The input element itself declares
`min="0.1"`, but typed values reach onChange regardless. -/
def handleDurationChange (sceneId : String) (val : Option Rat) (st : AppState) : AppState :=
  match val with
  | none => st
  | some v => if 0 ≤ v then updateSceneDuration sceneId v st else st

/-- The end time of the last clip on track 1, 0 when track 1 is missing or
empty (src/types.ts lines 286-292). -/
def track1StartTime (tracks : List Track) : Rat :=
  match tracks.find? (fun t => t.id = 1) with
  | some track1 =>
      match track1.clips.getLast? with
      | some lastClip => lastClip.startTime + lastClip.duration
      | none => 0
  | none => 0

/-- The clip object built by `addToTimeline` (src/types.ts lines 275-293)
after its `startTime` reassignment, with `generateId()` determinized into
the supplied id. -/
def mkTimelineClip (scene : Scene) (newClipId : String) (startTime : Rat) : TimelineClip :=
  { id := newClipId, trackId := 1, startTime := startTime,
    duration := scene.duration, name := "Scene " ++ toString scene.number,
    type := ClipType.video, color := "#06b6d4", sceneId := some scene.id }

/-- The `addToTimeline` handler (src/types.ts lines 274-302): builds a clip
for the scene, computes its start time from the last clip of track 1,
appends it to every track of id 1 via the `setTracks` map, and switches to
the timeline tab.  There is no failure path: when no track has id 1 the map
changes nothing and the tab still switches. -/
def addToTimeline (scene : Scene) (newClipId : String) (st : AppState) : AppState :=
  let newClip := mkTimelineClip scene newClipId (track1StartTime st.tracks)
  { st with
    tracks := st.tracks.map (fun t =>
      if t.id = 1 then { t with clips := t.clips ++ [newClip] } else t),
    activeTab := Tab.timeline }

/-- Whether the image-generation job for a scene is running: the truthiness
of `generatingImages[sceneId]` (an absent key reads as `undefined`, which is
falsy).  This is exactly the `disabled` condition of the Generate Image
button (src/types.ts line 454). -/
def imageRunning (st : AppState) (sceneId : String) : Bool :=
  (getRecord sceneId st.generatingImages).getD false

/-- The synchronous prefix of `generateStoryboardImage` (src/types.ts lines
180-181): marks the scene's image job as running before the remote call is
issued. -/
def submitImage (sceneId : String) (st : AppState) : AppState :=
  { st with generatingImages := setRecord sceneId true st.generatingImages }

/-- Outcome of the awaited image-generation call (src/types.ts lines
184-196): an inline-data part was found (`success url`), the call returned
without an image part so `imageUrl` stayed empty (`noImage`), or the call
threw and control reached the `catch` block (`failure err`). -/
inductive ImageOutcome
  | success (url : String)
  | noImage
  | failure (err : String)
deriving DecidableEq, Repr

/-- The remainder of `generateStoryboardImage` after the await (src/types.ts
lines 189-208): only a non-empty `imageUrl` writes `storyboardUrl` on the
scene; the `catch` block only logs to the console; the `finally` block
clears the running flag in every case.  No error detail is stored in any
state cell. -/
def finishImage (sceneId : String) (outcome : ImageOutcome) (st : AppState) : AppState :=
  let st1 :=
    match outcome with
    | ImageOutcome.success url =>
        { st with script := { st.script with
            scenes := st.script.scenes.map (fun (s : Scene) =>
              if s.id = sceneId then { s with storyboardUrl := some url } else s) } }
    | ImageOutcome.noImage => st
    | ImageOutcome.failure _ => st
  { st1 with generatingImages := setRecord sceneId false st1.generatingImages }

/-- Whether the video-generation job for a scene is running: the truthiness
of `veoState[sceneId]?.isGenerating`.  This is exactly the `disabled`
condition of the Veo Video button (src/types.ts line 463). -/
def veoRunning (st : AppState) (sceneId : String) : Bool :=
  ((getRecord sceneId st.veoState).map VeoGenerationState.isGenerating).getD false

/-- Result of the synchronous prefix of `generateVeoVideo`: the paid-key
gate returned early, the storyboard-image prerequisite failed (alert only),
or the job was started. -/
inductive VeoStartResult
  | noPaidKey
  | missingPrerequisite
  | started
deriving DecidableEq, Repr

/-- The body of `generateVeoVideo` once the paid-key gate has been passed
(src/types.ts lines 217-222): without a storyboard image it alerts and
returns with no state change; with one it marks the scene's video job as
running with the initial progress message. -/
def startVeoVideoBody (scene : Scene) (st : AppState) : VeoStartResult × AppState :=
  match scene.storyboardUrl with
  | none => (VeoStartResult.missingPrerequisite, st)
  | some _ =>
      (VeoStartResult.started,
       { st with veoState :=
          setRecord scene.id ⟨true, "Initializing Veo..."⟩ st.veoState })

/-- The synchronous prefix of `generateVeoVideo` (src/types.ts lines
211-222).  The `window.aistudio` key-selection dialog is an external
boundary; `keyGranted` is its answer: when `hasPaidKey` is not yet set the
handler opens the dialog, stores the answer, and returns early if the
answer is negative. -/
def startVeoVideo (keyGranted : Bool) (scene : Scene) (st : AppState) : VeoStartResult × AppState :=
  if st.hasPaidKey then startVeoVideoBody scene st
  else
    if keyGranted then startVeoVideoBody scene { st with hasPaidKey := true }
    else (VeoStartResult.noPaidKey, { st with hasPaidKey := false })

/-- The remainder of `generateVeoVideo` after polling ends (src/types.ts
lines 254-271): a produced video URI ends up as an object URL on the
scene's `videoUrl`; a thrown error only alerts; the `finally` block resets
the scene's veo state to not-generating with an empty message. -/
def finishVeoVideo (sceneId : String) (videoUrl : Option String) (st : AppState) : AppState :=
  let st1 :=
    match videoUrl with
    | some url =>
        { st with script := { st.script with
            scenes := st.script.scenes.map (fun (s : Scene) =>
              if s.id = sceneId then { s with videoUrl := some url } else s) } }
    | none => st
  { st1 with veoState := setRecord sceneId ⟨false, ""⟩ st1.veoState }

/-- The spec's name for the rejection of a generation request whose job is
already running. -/
inductive SubmitError
  | alreadyRunning
deriving DecidableEq, Repr

/-- Outcome of pressing a generation button. -/
inductive ClickOutcome
  | rejected (e : SubmitError)
  | handled (r : VeoStartResult)
deriving DecidableEq, Repr

/-- Pressing the Generate Image button for a scene (src/types.ts lines
452-455): while `generatingImages[sceneId]` is truthy the button is
`disabled`, so the press is rejected without reaching the handler — the
spec's AlreadyRunning; otherwise the handler starts the job. -/
def clickGenerateImage (sceneId : String) (st : AppState) : ClickOutcome × AppState :=
  if imageRunning st sceneId then (ClickOutcome.rejected SubmitError.alreadyRunning, st)
  else (ClickOutcome.handled VeoStartResult.started, submitImage sceneId st)

/-- Pressing the Veo Video button for a scene (src/types.ts lines 461-464):
while `veoState[sceneId]?.isGenerating` is truthy the button is `disabled`,
so the press is rejected without reaching the handler — the spec's
AlreadyRunning; otherwise `generateVeoVideo` runs. -/
def clickGenerateVeo (keyGranted : Bool) (scene : Scene) (st : AppState) :
    ClickOutcome × AppState :=
  if veoRunning st scene.id then (ClickOutcome.rejected SubmitError.alreadyRunning, st)
  else
    let r := startVeoVideo keyGranted scene st
    (ClickOutcome.handled r.1, r.2)

/-- Timeline error taxonomy of the specification. -/
inductive TimelineError
  | unknownTrack
deriving DecidableEq, Repr

/-- Follows the specification's words for `appendClip(trackId, clip)`
(spec §4.4), stated for comparison with the code's `addToTimeline`: fail
with UnknownTrack if no track has the given id; otherwise append the clip
to that track at the last clip's end time (0 on an empty track), ignoring
the caller-supplied start time. -/
def appendClipSpec (trackId : Int) (clip : TimelineClip) (tracks : List Track) :
    Except TimelineError (List Track) :=
  if tracks.any (fun t => t.id = trackId) then
    Except.ok (tracks.map (fun t =>
      if t.id = trackId then
        { t with clips := t.clips ++
            [{ clip with
                trackId := trackId,
                startTime :=
                  match t.clips.getLast? with
                  | some lastClip => lastClip.startTime + lastClip.duration
                  | none => 0 }] }
      else t))
  else Except.error TimelineError.unknownTrack

/-!  Concrete fixtures used by witnesses and counterexamples. -/

/-- Scene fixture builder. -/
def mkScene (sid : String) (n : Int) (d : Rat) : Scene :=
  { id := sid, number := n, slugline := "INT. TEST - DAY", description := "a test scene",
    storyboardUrl := none, videoUrl := none, duration := d }

/-- A scene with id `s1` and duration 5 and no artifacts. -/
def sceneW : Scene := mkScene "s1" 1 5

/-- The same scene after a still image was attached. -/
def sceneImg : Scene := { mkScene "s1" 1 5 with storyboardUrl := some "data:image/png;base64,AAAA" }

/-- A clip on track 1 linked to scene `s1`. -/
def clipW : TimelineClip :=
  { id := "c0", trackId := 1, startTime := 0, duration := 5, name := "Scene 1",
    type := ClipType.video, color := "#06b6d4", sceneId := some "s1" }

/-- A state holding scene `s1` and a track-1 clip linked to it; no job is
running and the paid key is present. -/
def stW : AppState :=
  { activeTab := Tab.storyboard,
    script := { title := "Untitled Project", rawContent := "INT. TEST - DAY", scenes := [sceneW] },
    tracks := [ { id := 1, name := "Video 1", type := TrackType.video, clips := [clipW] },
                { id := 2, name := "Video 2", type := TrackType.video, clips := [] } ],
    isParsing := false,
    generatingImages := [("s1", false)],
    veoState := [("s1", { isGenerating := false, progressMessage := "" })],
    hasPaidKey := true }

/-- The post-parse state of end-to-end scenario A: three scenes with
durations 4, 6 and 5 and the untouched initial track set. -/
def stA : AppState :=
  { activeTab := Tab.storyboard,
    script := { title := "Untitled Project", rawContent := "INT. TEST - DAY",
                scenes := [mkScene "a" 1 4, mkScene "b" 2 6, mkScene "c" 3 5] },
    tracks := initialTracks, isParsing := false,
    generatingImages := [], veoState := [], hasPaidKey := false }

/-- A state whose track list has no track of id 1. -/
def stNoT1 : AppState :=
  { activeTab := Tab.storyboard,
    script := { title := "Untitled Project", rawContent := "INT. TEST - DAY", scenes := [sceneW] },
    tracks := [ { id := 2, name := "Video 2", type := TrackType.video, clips := [] } ],
    isParsing := false, generatingImages := [], veoState := [], hasPaidKey := false }

/-- The first entry of the initial track set, the append target of
`addToTimeline`. -/
def trackV1 : Track := { id := 1, name := "Video 1", type := TrackType.video, clips := [] }

/-!  Helper lemmas about the record operations and about `find?` over a
track map, shared by the claim theorems below. -/

theorem getRecord_setRecord_self {α : Type} (k : String) (v : α) :
    ∀ r : List (String × α), getRecord k (setRecord k v r) = some v
  | [] => by simp [getRecord, setRecord]
  | p :: r => by
      by_cases h : p.1 = k
      · simp [getRecord, setRecord, h]
      · simp [getRecord, setRecord, h, getRecord_setRecord_self k v r]

theorem find?_map_of_pred_preserved {α : Type} (p : α → Bool) (g : α → α)
    (hg : ∀ t, p (g t) = p t) :
    ∀ (l : List α) (tr : α), l.find? p = some tr → (l.map g).find? p = some (g tr)
  | [], tr, h => by simp [List.find?] at h
  | t :: l, tr, h => by
      by_cases hp : p t
      · rw [List.find?_cons_of_pos _ hp] at h
        cases h
        simp [List.find?_cons_of_pos _ ((hg t).trans hp)]
      · rw [List.find?_cons_of_neg _ (by simp [hp])] at h
        rw [List.map_cons, List.find?_cons_of_neg _ (by simp [hg, hp])]
        exact find?_map_of_pred_preserved p g hg l tr h

theorem map_eq_self_of_fixed {α : Type} (f : α → α) :
    ∀ l : List α, (∀ a ∈ l, f a = a) → l.map f = l
  | [], _ => rfl
  | a :: l, h => by
      rw [List.map_cons, h a (by simp),
        map_eq_self_of_fixed f l (fun b hb => h b (by simp [hb]))]

/-- Claim C1: for every positive duration d and every scene id, the
duration edit implemented by `updateSceneDuration` sets the duration of
the scene with that id and of every clip whose sceneId link matches to
exactly d, leaves the startTime of every clip on every track unchanged,
and afterwards every linked clip's duration equals the scene's duration. -/
theorem updateSceneDuration_propagates
    (st : AppState) (sceneId : String) (d : Rat) (_hd : 0 < d) :
    (∀ s ∈ (updateSceneDuration sceneId d st).script.scenes, s.id = sceneId → s.duration = d)
  ∧ (∀ t ∈ (updateSceneDuration sceneId d st).tracks, ∀ c ∈ t.clips,
      c.sceneId = some sceneId → c.duration = d)
  ∧ (updateSceneDuration sceneId d st).tracks.map (fun t => t.clips.map TimelineClip.startTime)
      = st.tracks.map (fun t => t.clips.map TimelineClip.startTime)
  ∧ (∀ s ∈ (updateSceneDuration sceneId d st).script.scenes, s.id = sceneId →
      ∀ t ∈ (updateSceneDuration sceneId d st).tracks, ∀ c ∈ t.clips,
        c.sceneId = some sceneId → c.duration = s.duration) := by
  have hs : ∀ s ∈ (updateSceneDuration sceneId d st).script.scenes,
      s.id = sceneId → s.duration = d := by
    intro s hsm hid
    simp only [updateSceneDuration, List.mem_map] at hsm
    obtain ⟨s0, _, rfl⟩ := hsm
    by_cases h : s0.id = sceneId
    · simp [h]
    · simp only [h, if_false] at hid
  have hc : ∀ t ∈ (updateSceneDuration sceneId d st).tracks, ∀ c ∈ t.clips,
      c.sceneId = some sceneId → c.duration = d := by
    intro t ht c hcm hcl
    simp only [updateSceneDuration, List.mem_map] at ht
    obtain ⟨t0, _, rfl⟩ := ht
    simp only [List.mem_map] at hcm
    obtain ⟨c0, _, rfl⟩ := hcm
    by_cases h : c0.sceneId = some sceneId
    · simp [h]
    · simp only [h, if_false] at hcl
  refine ⟨hs, hc, ?_, ?_⟩
  · simp only [updateSceneDuration]
    rw [List.map_map]
    congr 1
    funext t
    simp only [Function.comp_apply]
    rw [List.map_map]
    congr 1
    funext c
    by_cases h : c.sceneId = some sceneId <;> simp [h]
  · intro s hsm hid t ht c hcm hcl
    exact (hc t ht c hcm hcl).trans (hs s hsm hid).symm

/-- Witness for C1 at the concrete state `stW`, duration 8. -/
theorem updateSceneDuration_propagates_witness :
    (0 : Rat) < 8
  ∧ ((∀ s ∈ (updateSceneDuration "s1" 8 stW).script.scenes, s.id = "s1" → s.duration = 8)
     ∧ (∀ t ∈ (updateSceneDuration "s1" 8 stW).tracks, ∀ c ∈ t.clips,
         c.sceneId = some "s1" → c.duration = 8)
     ∧ (updateSceneDuration "s1" 8 stW).tracks.map (fun t => t.clips.map TimelineClip.startTime)
         = stW.tracks.map (fun t => t.clips.map TimelineClip.startTime)
     ∧ (∀ s ∈ (updateSceneDuration "s1" 8 stW).script.scenes, s.id = "s1" →
         ∀ t ∈ (updateSceneDuration "s1" 8 stW).tracks, ∀ c ∈ t.clips,
           c.sceneId = some "s1" → c.duration = s.duration)) :=
  ⟨by decide, updateSceneDuration_propagates stW "s1" 8 (by decide)⟩

/-- Claim C2: `addToTimeline` always appends the new clip to track 1 at
start time equal to the previous last clip's startTime plus its duration
(0 on an empty track), and adding three scenes with durations 4, 6, 5 to
the initial track set yields track-1 start times 0, 4, 10. -/
theorem addToTimeline_sequential_append
    (st : AppState) (scene : Scene) (cid : String) (tr : Track)
    (h : st.tracks.find? (fun t => t.id = 1) = some tr) :
    ((addToTimeline scene cid st).tracks.find? (fun t => t.id = 1)
      = some { tr with clips :=
          tr.clips ++ [mkTimelineClip scene cid (track1StartTime st.tracks)] })
  ∧ (∀ lastClip, tr.clips.getLast? = some lastClip →
      track1StartTime st.tracks = lastClip.startTime + lastClip.duration)
  ∧ (tr.clips = [] → track1StartTime st.tracks = 0)
  ∧ ((addToTimeline (mkScene "c" 3 5) "c3"
        (addToTimeline (mkScene "b" 2 6) "c2"
          (addToTimeline (mkScene "a" 1 4) "c1" stA))).tracks.map
            (fun t => t.clips.map TimelineClip.startTime)) = [[0, 4, 10], [], []] := by
  have htr : tr.id = 1 := by
    have := List.find?_some h
    simpa using this
  refine ⟨?_, ?_, ?_, ?_⟩
  · have := find?_map_of_pred_preserved (fun t => t.id = 1)
      (fun t => if t.id = 1 then
        { t with clips := t.clips ++ [mkTimelineClip scene cid (track1StartTime st.tracks)] }
        else t)
      (fun t => by by_cases ht : t.id = 1 <;> simp [ht]) st.tracks tr h
    simpa [addToTimeline, htr] using this
  · intro lastClip hl
    simp [track1StartTime, h, hl]
  · intro he
    simp [track1StartTime, h, he]
  · norm_num [addToTimeline, track1StartTime, mkTimelineClip, stA, mkScene, initialTracks]

/-- Witness for C2 at the scenario-A state `stA`. -/
theorem addToTimeline_sequential_append_witness :
    stA.tracks.find? (fun t => t.id = 1) = some trackV1
  ∧ (((addToTimeline (mkScene "a" 1 4) "c1" stA).tracks.find? (fun t => t.id = 1)
      = some { trackV1 with clips :=
          trackV1.clips ++ [mkTimelineClip (mkScene "a" 1 4) "c1" (track1StartTime stA.tracks)] })
    ∧ (∀ lastClip, trackV1.clips.getLast? = some lastClip →
        track1StartTime stA.tracks = lastClip.startTime + lastClip.duration)
    ∧ (trackV1.clips = [] → track1StartTime stA.tracks = 0)
    ∧ ((addToTimeline (mkScene "c" 3 5) "c3"
          (addToTimeline (mkScene "b" 2 6) "c2"
            (addToTimeline (mkScene "a" 1 4) "c1" stA))).tracks.map
              (fun t => t.clips.map TimelineClip.startTime)) = [[0, 4, 10], [], []]) :=
  ⟨by decide, addToTimeline_sequential_append stA (mkScene "a" 1 4) "c1" trackV1 (by decide)⟩

/-- Claim C3: per (scene, kind) pair, a generation request made while that
pair's job is running is rejected as AlreadyRunning with no state change
(the button is disabled), a request made while it is not running starts
the job, finishing a job always leaves the pair not running so a new
request then succeeds, and the per-pair running state is a single boolean
flag, so at most one job per pair runs at a time. -/
theorem jobPairExclusion
    (st : AppState) (scene : Scene) (keyGranted : Bool)
    (outcome : ImageOutcome) (videoUrl : Option String) :
    (imageRunning st scene.id = true →
       clickGenerateImage scene.id st = (ClickOutcome.rejected SubmitError.alreadyRunning, st))
  ∧ (imageRunning st scene.id = false →
       clickGenerateImage scene.id st
         = (ClickOutcome.handled VeoStartResult.started, submitImage scene.id st)
       ∧ imageRunning (submitImage scene.id st) scene.id = true)
  ∧ imageRunning (finishImage scene.id outcome st) scene.id = false
  ∧ (clickGenerateImage scene.id (finishImage scene.id outcome st)).1
       = ClickOutcome.handled VeoStartResult.started
  ∧ (veoRunning st scene.id = true →
       clickGenerateVeo keyGranted scene st = (ClickOutcome.rejected SubmitError.alreadyRunning, st))
  ∧ veoRunning (finishVeoVideo scene.id videoUrl st) scene.id = false
  ∧ (st.hasPaidKey = true → scene.storyboardUrl ≠ none → veoRunning st scene.id = false →
       (clickGenerateVeo keyGranted scene st).1 = ClickOutcome.handled VeoStartResult.started
       ∧ veoRunning (clickGenerateVeo keyGranted scene st).2 scene.id = true) := by
  have hfin : imageRunning (finishImage scene.id outcome st) scene.id = false := by
    cases outcome <;> simp [finishImage, imageRunning, getRecord_setRecord_self]
  have hsub : imageRunning (submitImage scene.id st) scene.id = true := by
    simp [submitImage, imageRunning, getRecord_setRecord_self]
  refine ⟨?_, ?_, hfin, ?_, ?_, ?_, ?_⟩
  · intro h
    simp [clickGenerateImage, h]
  · intro h
    exact ⟨by simp [clickGenerateImage, h], hsub⟩
  · simp [clickGenerateImage, hfin]
  · intro h
    simp [clickGenerateVeo, h]
  · cases videoUrl <;> simp [finishVeoVideo, veoRunning, getRecord_setRecord_self]
  · intro hkey hurl hrun
    obtain ⟨u, hu⟩ := Option.ne_none_iff_exists'.mp hurl
    constructor
    · simp [clickGenerateVeo, hrun, startVeoVideo, hkey, startVeoVideoBody, hu]
    · simp only [clickGenerateVeo, hrun, Bool.false_eq_true, if_false]
      simp [startVeoVideo, hkey, startVeoVideoBody, hu, veoRunning, getRecord_setRecord_self]

/-- Witness for C3: a full submit / reject-while-running / finish / resubmit
round trip at the concrete state `stW` with scene `s1`. -/
theorem jobPairExclusion_witness :
    imageRunning stW sceneImg.id = false
  ∧ clickGenerateImage sceneImg.id stW
      = (ClickOutcome.handled VeoStartResult.started, submitImage sceneImg.id stW)
  ∧ imageRunning (submitImage sceneImg.id stW) sceneImg.id = true
  ∧ clickGenerateImage sceneImg.id (submitImage sceneImg.id stW)
      = (ClickOutcome.rejected SubmitError.alreadyRunning, submitImage sceneImg.id stW)
  ∧ imageRunning (finishImage sceneImg.id (ImageOutcome.failure "err")
      (submitImage sceneImg.id stW)) sceneImg.id = false
  ∧ (clickGenerateVeo true sceneImg stW).1 = ClickOutcome.handled VeoStartResult.started
  ∧ veoRunning (clickGenerateVeo true sceneImg stW).2 sceneImg.id = true :=
  ⟨by decide,
   ((jobPairExclusion stW sceneImg true (ImageOutcome.failure "err") none).2.1 (by decide)).1,
   ((jobPairExclusion stW sceneImg true (ImageOutcome.failure "err") none).2.1 (by decide)).2,
   (jobPairExclusion (submitImage sceneImg.id stW) sceneImg true
      (ImageOutcome.failure "err") none).1 (by decide),
   (jobPairExclusion (submitImage sceneImg.id stW) sceneImg true
      (ImageOutcome.failure "err") none).2.2.1,
   ((jobPairExclusion stW sceneImg true (ImageOutcome.failure "err") none).2.2.2.2.2.2
      rfl (by decide) (by decide)).1,
   ((jobPairExclusion stW sceneImg true (ImageOutcome.failure "err") none).2.2.2.2.2.2
      rfl (by decide) (by decide)).2⟩

/-- Claim C4 (code bug exhibit): the duration edit guard accepts 0.  A
negative value (-5) and a NaN are rejected leaving the prior duration 5 in
place, but the value 0 passes the guard `val >= 0` and drives the scene's
duration — and its linked clip's duration — to 0, even though the input
element itself declares `min="0.1"` and the specification requires
`newDuration <= 0` to fail with InvalidArgument. -/
theorem setDurationZero_accepted
    : (handleDurationChange "s1" (some (-5)) stW).script.scenes.map Scene.duration = [5]
    ∧ (handleDurationChange "s1" none stW).script.scenes.map Scene.duration = [5]
    ∧ (handleDurationChange "s1" (some 0) stW).script.scenes.map Scene.duration = [0]
    ∧ (handleDurationChange "s1" (some 0) stW).tracks.map
        (fun t => t.clips.map TimelineClip.duration) = [[0], []] := by
  decide

/-- Claim C5: once the paid key is present, requesting video generation for
a scene without a still-image artifact fails as MissingPrerequisite with no
state change at all, while for a scene with an artifact it starts the job,
transitioning the scene's video job to running. -/
theorem requestVideoGeneration_prerequisite
    (st : AppState) (scene : Scene) (keyGranted : Bool) (hkey : st.hasPaidKey = true) :
    (scene.storyboardUrl = none →
       startVeoVideo keyGranted scene st = (VeoStartResult.missingPrerequisite, st))
  ∧ (∀ url, scene.storyboardUrl = some url →
       startVeoVideo keyGranted scene st
         = (VeoStartResult.started,
            { st with veoState :=
                          setRecord scene.id
                            ({ isGenerating := true,
                               progressMessage := "Initializing Veo..." } : VeoGenerationState)
                            st.veoState })
       ∧ veoRunning (startVeoVideo keyGranted scene st).2 scene.id = true) := by
  constructor
  · intro hn
    simp [startVeoVideo, hkey, startVeoVideoBody, hn]
  · intro url hu
    constructor
    · simp [startVeoVideo, hkey, startVeoVideoBody, hu]
    · simp [startVeoVideo, hkey, startVeoVideoBody, hu, veoRunning, getRecord_setRecord_self]

/-- Witness for C5: at `stW` the artifact-less scene is rejected with the
state unchanged, and the scene with an image artifact ends up running. -/
theorem requestVideoGeneration_prerequisite_witness :
    stW.hasPaidKey = true
  ∧ startVeoVideo true sceneW stW = (VeoStartResult.missingPrerequisite, stW)
  ∧ veoRunning (startVeoVideo true sceneImg stW).2 sceneImg.id = true :=
  ⟨rfl,
   (requestVideoGeneration_prerequisite stW sceneW true rfl).1 rfl,
   ((requestVideoGeneration_prerequisite stW sceneImg true rfl).2
      "data:image/png;base64,AAAA" rfl).2⟩

/-- Claim C6 counterexample: at a state whose track list has no track of
id 1, the spec's `appendClip` fails with UnknownTrack, but the code's
`addToTimeline` does not fail at all — it leaves every track's clip list
unchanged and still switches the active tab to the timeline exactly as a
successful append would. -/
theorem appendClip_unknownTrack_counterexample
    : appendClipSpec 1 clipW stNoT1.tracks = Except.error TimelineError.unknownTrack
    ∧ (addToTimeline sceneW "c1" stNoT1).tracks = stNoT1.tracks
    ∧ (addToTimeline sceneW "c1" stNoT1).activeTab = Tab.timeline :=
  ⟨rfl, by decide, by decide⟩

/-- Claim C6 as amended: when no track with id 1 exists, `addToTimeline`
leaves every track's clip list unchanged (but reports no UnknownTrack
error; no failure path exists in the code). -/
theorem addToTimeline_missingTrack_noop
    (st : AppState) (scene : Scene) (cid : String)
    (h : ∀ t ∈ st.tracks, t.id ≠ 1) :
    (addToTimeline scene cid st).tracks = st.tracks := by
  simp only [addToTimeline]
  exact map_eq_self_of_fixed _ st.tracks (fun t ht => by simp [h t ht])

/-- Witness for the amended C6 at the concrete state `stNoT1`. -/
theorem addToTimeline_missingTrack_noop_witness :
    (addToTimeline sceneW "c1" stNoT1).tracks = stNoT1.tracks :=
  addToTimeline_missingTrack_noop stNoT1 sceneW "c1" (by decide)

/-- Claim C7 counterexample: an image job driven to terminal failure leaves
the scene's artifact reference unchanged (still none), but no error detail
is recorded anywhere: the entire post-failure state equals the pre-submit
state and is identical for two different error details, so the job status
exposes nothing inspectable (the error only goes to the console). -/
theorem imageFailure_unrecorded_counterexample
    : finishImage "s1" (ImageOutcome.failure "TransportError: poll failed")
        (submitImage "s1" stW) = stW
    ∧ finishImage "s1" (ImageOutcome.failure "a completely different error")
        (submitImage "s1" stW) = stW
    ∧ stW.script.scenes.map Scene.storyboardUrl = [none] := by
  decide

/-- Claim C7 as amended: on terminal failure of an image job the scene
store and timeline are untouched (in particular every prior artifact
reference, including null, is preserved — no partial overwrite), the job
returns to not-running, and the resulting state does not depend on the
error detail: no error detail is recorded in observable state. -/
theorem imageFailure_artifact_untouched
    (st : AppState) (sceneId : String) (e1 e2 : String) :
    (finishImage sceneId (ImageOutcome.failure e1) st).script = st.script
  ∧ (finishImage sceneId (ImageOutcome.failure e1) st).tracks = st.tracks
  ∧ imageRunning (finishImage sceneId (ImageOutcome.failure e1) st) sceneId = false
  ∧ finishImage sceneId (ImageOutcome.failure e1) st
      = finishImage sceneId (ImageOutcome.failure e2) st := by
  refine ⟨rfl, rfl, ?_, rfl⟩
  simp [finishImage, imageRunning, getRecord_setRecord_self]

/-- Claim C8: a parse request that fails leaves the previously held script
(and so its scene list) fully intact, as well as the tracks and the active
tab — the scene list is never partially replaced. -/
theorem parseScript_failure_keeps_scenes
    (genId : Nat → String) (err : String) (st : AppState) :
    (parseScript genId (ParseOutcome.failure err) st).script = st.script
  ∧ (parseScript genId (ParseOutcome.failure err) st).tracks = st.tracks
  ∧ (parseScript genId (ParseOutcome.failure err) st).activeTab = st.activeTab := by
  by_cases h : st.script.rawContent.trim = "" <;> simp [parseScript, h]

/-- Claim C9: the clip created by `addToTimeline` carries the source
scene's id as its sceneId link and the scene's duration at the moment of
the call, while the scene list itself is unchanged — so clip.duration
equals scene.duration already at clip creation. -/
theorem addToTimeline_clip_links_scene
    (st : AppState) (scene : Scene) (cid : String) (tr : Track)
    (_hs : scene ∈ st.script.scenes)
    (h : st.tracks.find? (fun t => t.id = 1) = some tr) :
    ∃ c : TimelineClip,
      (addToTimeline scene cid st).tracks.find? (fun t => t.id = 1)
        = some { tr with clips := tr.clips ++ [c] }
      ∧ c.sceneId = some scene.id
      ∧ c.duration = scene.duration
      ∧ (addToTimeline scene cid st).script.scenes = st.script.scenes := by
  have htr : tr.id = 1 := by
    have := List.find?_some h
    simpa using this
  refine ⟨mkTimelineClip scene cid (track1StartTime st.tracks), ?_, rfl, rfl, rfl⟩
  have := find?_map_of_pred_preserved (fun t => t.id = 1)
    (fun t => if t.id = 1 then
      { t with clips := t.clips ++ [mkTimelineClip scene cid (track1StartTime st.tracks)] }
      else t)
    (fun t => by by_cases ht : t.id = 1 <;> simp [ht]) st.tracks tr h
  simpa [addToTimeline, htr] using this

/-- Witness for C9 at the scenario state `stA`. -/
theorem addToTimeline_clip_links_scene_witness :
    mkScene "a" 1 4 ∈ stA.script.scenes
  ∧ stA.tracks.find? (fun t => t.id = 1) = some trackV1
  ∧ (∃ c : TimelineClip,
      (addToTimeline (mkScene "a" 1 4) "c1" stA).tracks.find? (fun t => t.id = 1)
        = some { trackV1 with clips := trackV1.clips ++ [c] }
      ∧ c.sceneId = some (mkScene "a" 1 4).id
      ∧ c.duration = (mkScene "a" 1 4).duration
      ∧ (addToTimeline (mkScene "a" 1 4) "c1" stA).script.scenes = stA.script.scenes) :=
  ⟨by decide, by decide,
   addToTimeline_clip_links_scene stA (mkScene "a" 1 4) "c1" trackV1 (by decide) (by decide)⟩

/-- Claim C10: `addToTimeline` preserves the number of tracks, leaves every
track whose id is not 1 completely unchanged, and replaces every track of
id 1 by the same track with exactly one new clip appended at the end of
its clip list — so existing clips keep their order, startTime and
duration. -/
theorem addToTimeline_frame
    (st : AppState) (scene : Scene) (cid : String) (i : Nat)
    (h1 : i < st.tracks.length) (h2 : i < (addToTimeline scene cid st).tracks.length) :
    ((addToTimeline scene cid st).tracks.length = st.tracks.length)
  ∧ ((st.tracks.get ⟨i, h1⟩).id ≠ 1 →
      (addToTimeline scene cid st).tracks.get ⟨i, h2⟩ = st.tracks.get ⟨i, h1⟩)
  ∧ ((st.tracks.get ⟨i, h1⟩).id = 1 →
      (addToTimeline scene cid st).tracks.get ⟨i, h2⟩
        = { st.tracks.get ⟨i, h1⟩ with
            clips := (st.tracks.get ⟨i, h1⟩).clips
              ++ [mkTimelineClip scene cid (track1StartTime st.tracks)] }) := by
  refine ⟨by simp [addToTimeline], ?_, ?_⟩
  · intro hne
    simp only [List.get_eq_getElem] at hne
    simp [addToTimeline, List.getElem_map, hne]
  · intro heq
    simp only [List.get_eq_getElem] at heq
    simp [addToTimeline, List.getElem_map, heq]

/-- Witness for C10 at the concrete state `stW`, index 0 (the id-1 track). -/
theorem addToTimeline_frame_witness :
    0 < stW.tracks.length
  ∧ (stW.tracks.get ⟨0, by decide⟩).id = 1
  ∧ (addToTimeline sceneW "c1" stW).tracks.get ⟨0, by decide⟩
      = { stW.tracks.get ⟨0, by decide⟩ with
          clips := (stW.tracks.get ⟨0, by decide⟩).clips
            ++ [mkTimelineClip sceneW "c1" (track1StartTime stW.tracks)] } :=
  ⟨by decide, by decide,
   (addToTimeline_frame stW sceneW "c1" 0 (by decide) (by decide)).2.2 (by decide)⟩
